import Mathlib

/-!
Shallow embedding of the anomaly-scoring core of the `apis-logging`
repository.

The embedded code:
* `anomaly_detector.py` — `LogAnomalyDetector.extract_features` and
  `LogAnomalyDetector.detect_anomalies` (rule-based detection with the
  `/api/suspicious` weighted rules and the standalone performance / error
  rules), plus the `log_buffer` rolling window.
* `anomaly/alert_handler.py` — `AlertHandler._determine_severity` and
  `AlertHandler.get_alert_summary`.
* `anomaly/detect.py` — the `historical_features` rolling training window
  and the `len(historical_features) > 10` training gate of the main loop.

Numbers that Python holds as floats are modelled as rationals `ℚ`.  All
score weights in the source are decimal literals (0.4, 0.3, 0.2, 0.1, 0.5,
0.7, 0.8, 0.9) and every comparison that the claims exercise agrees between
IEEE doubles and exact rationals: the accumulated sums that can reach the
0.5 cutoff exactly (0.4+0.1, 0.3+0.2) evaluate to exactly 0.5 in double
precision as well, so the `> 0.5` test never differs from the rational one.
Python dict fields accessed with `.get(key, default)` are modelled as
`Option` fields read through `Option.getD`.
-/

namespace ApisLogging

/-- Calendar data of a parsed log timestamp: only the fields that
`extract_features` reads (`timestamp.hour`, `timestamp.minute`,
`timestamp.weekday()`). -/
structure DateTime where
  hour : ℕ
  minute : ℕ
  weekday : ℕ
deriving DecidableEq, Repr

/-- One raw JSON log record.  Every field may be missing (`none`), exactly
as a key may be absent from the Python dict; the source reads each one
through `log.get(key, default)`.  The timestamp is the already-parsed
calendar value: `extract_features` substitutes the current processing time
when the field is missing or unparsable, which is modelled by `none` here
and a `now` argument at the call site. -/
structure LogRecord where
  timestamp : Option DateTime := none
  endpoint : Option String := none
  status_code : Option Int := none
  response_time_ms : Option ℚ := none
  response_size : Option ℚ := none
  suspicious_behavior : Option Bool := none
  unusual_pattern : Option Bool := none
  anomaly_score : Option ℚ := none
  user_agent : Option String := none
deriving DecidableEq, Repr

/-- One row of the features DataFrame built by
`LogAnomalyDetector.extract_features`: the seven schema columns of
`feature_columns`, the extra `anomaly_score` / `suspicious_behavior`
columns, and the carried-along `timestamp` and `raw_log`. -/
structure FeatureRow where
  response_time_ms : ℚ
  status_code : Int
  hour : ℕ
  minute : ℕ
  day_of_week : ℕ
  endpoint_length : ℕ
  user_agent_length : ℕ
  timestamp : DateTime
  raw_log : LogRecord
  anomaly_score : ℚ
  suspicious_behavior : ℕ
deriving DecidableEq, Repr

/-- `LogAnomalyDetector.extract_features`, one record.  `now` is the
current processing time used when the record carries no parsable
timestamp. -/
def extract_features_row (now : DateTime) (log : LogRecord) : FeatureRow :=
  let ts := log.timestamp.getD now
  { response_time_ms := log.response_time_ms.getD 0
    status_code := log.status_code.getD 200
    hour := ts.hour
    minute := ts.minute
    day_of_week := ts.weekday
    endpoint_length := (log.endpoint.getD "").length
    user_agent_length := (log.user_agent.getD "").length
    timestamp := ts
    raw_log := log
    anomaly_score := log.anomaly_score.getD 0
    suspicious_behavior := if log.suspicious_behavior.getD false then 1 else 0 }

/-- `LogAnomalyDetector.extract_features` over a batch of logs. -/
def extract_features (now : DateTime) (logs : List LogRecord) : List FeatureRow :=
  logs.map (extract_features_row now)

/-- The fixed feature schema `self.feature_columns`: the projection of a
row onto its seven numeric feature components, in column order. -/
def featureVector (f : FeatureRow) : List ℚ :=
  [f.response_time_ms, (f.status_code : ℚ), (f.hour : ℚ), (f.minute : ℚ),
   (f.day_of_week : ℚ), (f.endpoint_length : ℚ), (f.user_agent_length : ℚ)]

/-- Reason tags attached to detected anomalies.  The source builds them as
formatted strings (`f"slow_response_{t:.0f}ms"` etc.); the constructor
carries the interpolated value. -/
inductive Reason where
  | suspicious_behavior_flag
  | unusual_pattern_flag
  | high_anomaly_score (value : ℚ)
  | slow_response (ms : ℚ)
  | large_response (bytes : ℚ)
  | extremely_slow_response (ms : ℚ)
  | server_error (code : Int)
deriving DecidableEq, Repr

/-- One anomaly dict appended to `anomalies` by
`LogAnomalyDetector.detect_anomalies`. -/
structure Anomaly where
  timestamp : DateTime
  type : String
  score : ℚ
  endpoint : String
  reasons : List Reason
  raw_log : LogRecord
deriving DecidableEq, Repr

/-- Python's `'/api/suspicious' in endpoint` substring test. -/
def strContains (hay needle : List Char) : Bool :=
  match hay with
  | [] => needle.isEmpty
  | _ :: t => needle.isPrefixOf hay || strContains t needle

/-- `'/api/suspicious' in endpoint`. -/
def containsSuspicious (endpoint : String) : Bool :=
  strContains endpoint.toList "/api/suspicious".toList

/-- The weighted-rule accumulation of `detect_anomalies` for a record on
the suspicious endpoint: score contributions and reason tags, accumulated
in the source's evaluation order. -/
def ruleScore (raw : LogRecord) : ℚ × List Reason :=
  let score0 : ℚ := 0
  let reasons0 : List Reason := []
  let s1 := if raw.suspicious_behavior.getD false
    then (score0 + 2/5, reasons0 ++ [Reason.suspicious_behavior_flag])
    else (score0, reasons0)
  let s2 := if raw.unusual_pattern.getD false
    then (s1.1 + 3/10, s1.2 ++ [Reason.unusual_pattern_flag])
    else s1
  let s3 := if raw.anomaly_score.getD 0 > 7/10
    then (s2.1 + 3/10, s2.2 ++ [Reason.high_anomaly_score (raw.anomaly_score.getD 0)])
    else s2
  let response_time := raw.response_time_ms.getD 0
  let s4 := if response_time > 2000
    then (s3.1 + 1/5, s3.2 ++ [Reason.slow_response response_time])
    else s3
  let response_size := raw.response_size.getD 0
  if response_size > 1000
    then (s4.1 + 1/10, s4.2 ++ [Reason.large_response response_size])
    else s4

/-- First loop of `detect_anomalies`: a row whose endpoint contains
`/api/suspicious` emits a `suspicious_endpoint_anomaly` when the
accumulated rule score exceeds 0.5. -/
def evalSuspicious (row : FeatureRow) : Option Anomaly :=
  let raw := row.raw_log
  let endpoint := raw.endpoint.getD ""
  if containsSuspicious endpoint then
    let r := ruleScore raw
    if r.1 > 1/2 then
      some { timestamp := row.timestamp, type := "suspicious_endpoint_anomaly",
             score := r.1, endpoint := endpoint, reasons := r.2, raw_log := raw }
    else none
  else none

/-- Second loop of `detect_anomalies`: rows NOT on the suspicious endpoint
are checked for the standalone performance (response time > 5000 ms) and
server-error (status ≥ 500) rules; a single row can emit both. -/
def evalOther (row : FeatureRow) : List Anomaly :=
  let raw := row.raw_log
  let endpoint := raw.endpoint.getD ""
  if containsSuspicious endpoint then []
  else
    let response_time := raw.response_time_ms.getD 0
    let perf : List Anomaly :=
      if response_time > 5000 then
        [{ timestamp := row.timestamp, type := "performance_anomaly", score := 4/5,
           endpoint := endpoint,
           reasons := [Reason.extremely_slow_response response_time], raw_log := raw }]
      else []
    let status_code := raw.status_code.getD 200
    let err : List Anomaly :=
      if status_code ≥ 500 then
        [{ timestamp := row.timestamp, type := "error_anomaly", score := 9/10,
           endpoint := endpoint,
           reasons := [Reason.server_error status_code], raw_log := raw }]
      else []
    perf ++ err

/-- `LogAnomalyDetector.detect_anomalies`: skip batches of fewer than 5
rows, then run the suspicious-endpoint loop over the whole frame followed
by the performance/error loop over the whole frame. -/
def detect_anomalies (df : List FeatureRow) : List Anomaly :=
  if df.length < 5 then []
  else df.filterMap evalSuspicious ++ df.flatMap evalOther

/-! ## `anomaly/alert_handler.py` -/

/-- `AlertHandler._determine_severity`: the source reads
`anomaly_data.get('score', 0)` and `anomaly_data.get('type', '')` and
classifies from those two values. -/
def determine_severity (score : ℚ) (anomaly_type : String) : String :=
  if score > 4/5 ∨ anomaly_type = "response_time_anomaly" ∨
      anomaly_type = "status_code_anomaly" then "HIGH"
  else if score > 1/2 then "MEDIUM"
  else "LOW"

/-- One entry of `AlertHandler.alert_history`, as built by `send_alert`.
`timestamp` is the creation time in epoch seconds (the source stores an
ISO string and converts back with `datetime.fromisoformat(...).timestamp()`
when summarising). -/
structure Alert where
  timestamp : ℚ
  severity : String
  anomaly_type : String
  anomaly_score : ℚ
deriving DecidableEq, Repr

/-- `counts[key] = counts.get(key, 0) + 1` on a Python dict: association
list preserving first-insertion order, as Python dicts do. -/
def bumpCount (m : List (String × ℕ)) (key : String) : List (String × ℕ) :=
  if m.any (fun p => p.1 = key) then
    m.map (fun p => if p.1 = key then (p.1, p.2 + 1) else p)
  else m ++ [(key, 1)]

/-- The dict returned by `AlertHandler.get_alert_summary`. -/
structure AlertSummary where
  total_alerts : ℕ
  severity_breakdown : List (String × ℕ)
  type_breakdown : List (String × ℕ)
  time_range_hours : ℚ
deriving DecidableEq, Repr

/-- `AlertHandler.get_alert_summary`: filter history to alerts newer than
`now − hours·3600`, then count severities and types in one pass. -/
def get_alert_summary (alert_history : List Alert) (hours : ℚ) (now : ℚ) :
    AlertSummary :=
  let cutoff_time := now - hours * 3600
  let recent_alerts := alert_history.filter (fun a => a.timestamp > cutoff_time)
  let counts := recent_alerts.foldl
    (fun (p : List (String × ℕ) × List (String × ℕ)) a =>
      (bumpCount p.1 a.severity, bumpCount p.2 a.anomaly_type)) ([], [])
  { total_alerts := recent_alerts.length
    severity_breakdown := counts.1
    type_breakdown := counts.2
    time_range_hours := hours }

/-- The mutable state of an `AlertHandler` instance that
`get_alert_summary` can touch: its `alert_history` list. -/
structure AlertHandlerState where
  alert_history : List Alert
deriving DecidableEq, Repr

/-- `get_alert_summary` as a state transformer on the handler, returning
the (possibly updated) state and the summary dict.  The method only reads
`self.alert_history`, so the state comes back unchanged. -/
def get_alert_summaryS (s : AlertHandlerState) (hours : ℚ) (now : ℚ) :
    AlertHandlerState × AlertSummary :=
  (s, get_alert_summary s.alert_history hours now)

/-! ## `anomaly/detect.py` — rolling training window and training gate -/

/-- One `features` vector of `calculate_log_features`
(`[log_volume, error_rate, avg_line_length, entropy]`). -/
def FeatureVec := List ℚ
deriving DecidableEq, Repr

/-- The window-trimming statement of the main loop:
`if len(historical_features) > 100: historical_features = historical_features[-100:]`. -/
def trimWindow (historical_features : List FeatureVec) : List FeatureVec :=
  if historical_features.length > 100 then
    historical_features.drop (historical_features.length - 100)
  else historical_features

/-- One iteration of the training bookkeeping in the `detect.py` main
loop: append the cycle's feature vector, trim the window to the last 100
entries, and decide whether the model is trained this cycle
(`len(historical_features) > 10`).  Returns the new window and the
train/skip decision. -/
def cycleStep (historical_features : List FeatureVec) (features : FeatureVec) :
    List FeatureVec × Bool :=
  let h := trimWindow (historical_features ++ [features])
  (h, h.length > 10)

/-! ## Rolling window, capacity as a parameter

`detect.py` trims `historical_features` to its last 100 entries after each
append, and `anomaly_detector.py` keeps `log_buffer = deque(maxlen=1000)`;
both are append-then-trim-to-last-W buffers.  `appendTrim W` is that
common operation. -/

/-- Append one entry and keep only the newest `W` entries. -/
def appendTrim (W : ℕ) (window : List ℕ) (x : ℕ) : List ℕ :=
  let w2 := window ++ [x]
  if W < w2.length then w2.drop (w2.length - W) else w2

/-- The window contents after feeding the sequence `xs` into an initially
empty window of capacity `W`. -/
def runWindow (W : ℕ) (xs : List ℕ) : List ℕ :=
  xs.foldl (appendTrim W) []

/-! ## Concrete inputs used by witnesses and counterexamples -/

/-- A fixed processing time for concrete batches. -/
def midnight : DateTime := ⟨0, 0, 0⟩

/-- A benign filler record on a normal endpoint. -/
def fillerRecord : LogRecord := { endpoint := some "/ok" }

/-- A record off the suspicious endpoint whose weighted indicators sum to
0.7. -/
def offEndpointRecord : LogRecord :=
  { endpoint := some "/x", suspicious_behavior := some true,
    unusual_pattern := some true }

/-- Batch: the off-endpoint flagged record plus four fillers. -/
def dfOffEndpoint : List FeatureRow :=
  extract_features midnight
    [offEndpointRecord, fillerRecord, fillerRecord, fillerRecord, fillerRecord]

/-- A suspicious-endpoint record satisfying all five weighted conditions. -/
def allConditionsRecord : LogRecord :=
  { endpoint := some "/api/suspicious", suspicious_behavior := some true,
    unusual_pattern := some true, anomaly_score := some (4/5),
    response_time_ms := some 3000, response_size := some 2000 }

/-- Batch: the all-conditions record plus four fillers. -/
def dfAllConditions : List FeatureRow :=
  extract_features midnight
    [allConditionsRecord, fillerRecord, fillerRecord, fillerRecord, fillerRecord]

/-! ## Helper lemmas -/

/-- `ruleScore`, re-expressed condition by condition: the score is the sum
of the weights of the satisfied conditions and the reasons are concatenated
in evaluation order. -/
lemma ruleScore_eval (raw : LogRecord) :
    ruleScore raw =
      ((if raw.suspicious_behavior.getD false then (2:ℚ)/5 else 0) +
       (if raw.unusual_pattern.getD false then (3:ℚ)/10 else 0) +
       (if raw.anomaly_score.getD 0 > 7/10 then (3:ℚ)/10 else 0) +
       (if raw.response_time_ms.getD 0 > 2000 then (1:ℚ)/5 else 0) +
       (if raw.response_size.getD 0 > 1000 then (1:ℚ)/10 else 0),
       (if raw.suspicious_behavior.getD false
          then [Reason.suspicious_behavior_flag] else []) ++
       (if raw.unusual_pattern.getD false
          then [Reason.unusual_pattern_flag] else []) ++
       (if raw.anomaly_score.getD 0 > 7/10
          then [Reason.high_anomaly_score (raw.anomaly_score.getD 0)] else []) ++
       (if raw.response_time_ms.getD 0 > 2000
          then [Reason.slow_response (raw.response_time_ms.getD 0)] else []) ++
       (if raw.response_size.getD 0 > 1000
          then [Reason.large_response (raw.response_size.getD 0)] else [])) := by
  by_cases h1 : raw.suspicious_behavior.getD false <;>
  by_cases h2 : raw.unusual_pattern.getD false <;>
  by_cases h3 : raw.anomaly_score.getD 0 > 7/10 <;>
  by_cases h4 : raw.response_time_ms.getD 0 > 2000 <;>
  by_cases h5 : raw.response_size.getD 0 > 1000 <;>
  simp [ruleScore, h1, h2, h3, h4, h5]

/-- The accumulated rule score lies in `[0, 13/10]`. -/
lemma ruleScore_bounds (raw : LogRecord) :
    0 ≤ (ruleScore raw).1 ∧ (ruleScore raw).1 ≤ 13/10 := by
  rw [ruleScore_eval]
  dsimp only
  split_ifs <;> norm_num

/-- Above the minimum batch size, detection is the suspicious-endpoint
pass followed by the performance/error pass. -/
lemma detect_anomalies_eq (df : List FeatureRow) (h : 5 ≤ df.length) :
    detect_anomalies df = df.filterMap evalSuspicious ++ df.flatMap evalOther := by
  unfold detect_anomalies
  rw [if_neg (by omega)]

/-- The anomaly dict that the suspicious-endpoint pass emits for a row. -/
def suspiciousAnomaly (row : FeatureRow) : Anomaly :=
  { timestamp := row.timestamp, type := "suspicious_endpoint_anomaly",
    score := (ruleScore row.raw_log).1,
    endpoint := row.raw_log.endpoint.getD "",
    reasons := (ruleScore row.raw_log).2, raw_log := row.raw_log }

lemma evalSuspicious_pos (row : FeatureRow)
    (hend : containsSuspicious (row.raw_log.endpoint.getD "") = true)
    (hsc : (ruleScore row.raw_log).1 > 1/2) :
    evalSuspicious row = some (suspiciousAnomaly row) := by
  have hsc' : (2:ℚ)⁻¹ < (ruleScore row.raw_log).1 := by linarith
  simp [evalSuspicious, suspiciousAnomaly, hend, hsc']

lemma evalSuspicious_neg (row : FeatureRow)
    (hsc : ¬ (ruleScore row.raw_log).1 > 1/2) :
    evalSuspicious row = none := by
  have hsc' : ¬ ((2:ℚ)⁻¹ < (ruleScore row.raw_log).1) := by
    push_neg at hsc ⊢; linarith
  by_cases hend : containsSuspicious (row.raw_log.endpoint.getD "") = true <;>
  simp [evalSuspicious, hend, hsc']

lemma evalSuspicious_inv (row : FeatureRow) (a : Anomaly)
    (h : evalSuspicious row = some a) :
    (ruleScore row.raw_log).1 > 1/2 ∧ a = suspiciousAnomaly row := by
  by_cases hsc : (ruleScore row.raw_log).1 > 1/2
  · refine ⟨hsc, ?_⟩
    by_cases hend : containsSuspicious (row.raw_log.endpoint.getD "") = true
    · rw [evalSuspicious_pos row hend hsc] at h
      exact (Option.some_inj.mp h).symm
    · simp [evalSuspicious, hend] at h
  · rw [evalSuspicious_neg row hsc] at h
    exact absurd h (by simp)

/-- The anomaly dict that the performance rule emits for a row. -/
def perfAnomaly (row : FeatureRow) : Anomaly :=
  { timestamp := row.timestamp, type := "performance_anomaly", score := 4/5,
    endpoint := row.raw_log.endpoint.getD "",
    reasons := [Reason.extremely_slow_response (row.raw_log.response_time_ms.getD 0)],
    raw_log := row.raw_log }

/-- The anomaly dict that the server-error rule emits for a row. -/
def errorAnomaly (row : FeatureRow) : Anomaly :=
  { timestamp := row.timestamp, type := "error_anomaly", score := 9/10,
    endpoint := row.raw_log.endpoint.getD "",
    reasons := [Reason.server_error (row.raw_log.status_code.getD 200)],
    raw_log := row.raw_log }

lemma perf_mem_evalOther (row : FeatureRow)
    (hend : containsSuspicious (row.raw_log.endpoint.getD "") = false)
    (hrt : row.raw_log.response_time_ms.getD 0 > 5000) :
    perfAnomaly row ∈ evalOther row := by
  simp [evalOther, perfAnomaly, hend, hrt]

lemma error_mem_evalOther (row : FeatureRow)
    (hend : containsSuspicious (row.raw_log.endpoint.getD "") = false)
    (hst : row.raw_log.status_code.getD 200 ≥ 500) :
    errorAnomaly row ∈ evalOther row := by
  by_cases hrt : row.raw_log.response_time_ms.getD 0 > 5000 <;>
  simp [evalOther, errorAnomaly, hend, hst, hrt]

lemma evalOther_cases (row : FeatureRow) (a : Anomaly) (h : a ∈ evalOther row) :
    a = perfAnomaly row ∨ a = errorAnomaly row := by
  by_cases hend : containsSuspicious (row.raw_log.endpoint.getD "") = true <;>
  by_cases hrt : row.raw_log.response_time_ms.getD 0 > 5000 <;>
  by_cases hst : row.raw_log.status_code.getD 200 ≥ 500 <;>
  simp [evalOther, perfAnomaly, errorAnomaly, hend, hrt, hst] at h ⊢ <;>
  tauto

/-! ## Further concrete inputs -/

/-- A slow record on the suspicious endpoint (C2 counterexample input). -/
def slowSuspiciousRecord : LogRecord :=
  { endpoint := some "/api/suspicious", response_time_ms := some 6000 }

/-- Batch: the slow suspicious-endpoint record plus four fillers. -/
def dfSlowSuspicious : List FeatureRow :=
  extract_features midnight
    [slowSuspiciousRecord, fillerRecord, fillerRecord, fillerRecord, fillerRecord]

/-- A slow record on a normal endpoint (C2 witness input). -/
def slowNormalRecord : LogRecord :=
  { endpoint := some "/api/data", response_time_ms := some 6000 }

/-- Batch: the slow normal-endpoint record plus four fillers. -/
def dfSlowNormal : List FeatureRow :=
  extract_features midnight
    [slowNormalRecord, fillerRecord, fillerRecord, fillerRecord, fillerRecord]

/-- A normal low-latency 200 record. -/
def normalStatusRecord : LogRecord :=
  { endpoint := some "/api/users", status_code := some 200,
    response_time_ms := some 50 }

/-- A status-500 record on a normal endpoint. -/
def errorStatusRecord : LogRecord :=
  { endpoint := some "/api/orders", status_code := some 500,
    response_time_ms := some 50 }

/-- The end-to-end batch of the spec: 10 normal low-latency 200s and 5
records with status 500. -/
def batch15 : List FeatureRow :=
  extract_features midnight
    (List.replicate 10 normalStatusRecord ++ List.replicate 5 errorStatusRecord)

/-- A status-500 record on the suspicious endpoint (C3 counterexample
input). -/
def errorSuspiciousRecord : LogRecord :=
  { endpoint := some "/api/suspicious", status_code := some 500 }

/-- Batch: the suspicious-endpoint error record plus four fillers. -/
def dfErrorSuspicious : List FeatureRow :=
  extract_features midnight
    [errorSuspiciousRecord, fillerRecord, fillerRecord, fillerRecord, fillerRecord]

/-- A batch interleaving an error record before a rule-flagged suspicious
record (C10 witness input). -/
def dfInterleaved : List FeatureRow :=
  extract_features midnight
    [errorStatusRecord, allConditionsRecord, fillerRecord, fillerRecord, fillerRecord]

/-! ## Claims -/

/-- C1, counterexample: a record off the `/api/suspicious` endpoint whose
weighted indicators sum to 0.7 > 0.5 produces NO
`suspicious_endpoint_anomaly` (the detector never rule-evaluates records on
other endpoints), so "for every log record … flagged iff the sum exceeds
0.5" fails as stated. -/
theorem claim_C1_counterexample :
    (ruleScore offEndpointRecord).1 = 7/10 ∧ ((7:ℚ)/10 > 1/2) ∧
    detect_anomalies dfOffEndpoint = [] := by
  refine ⟨by with_unfolding_all decide, by norm_num, by with_unfolding_all decide⟩

/-- C1 (amended): for every log record on an endpoint containing
`/api/suspicious`, inside a batch of at least 5 rows, rule evaluation
computes the score as the sum of the weights of the satisfied conditions
(0.4 suspicious_behavior, 0.3 unusual_pattern, 0.3 anomaly_score > 0.7,
0.2 response_time_ms > 2000, 0.1 response_size > 1000) with reasons
appended in that order, and a `suspicious_endpoint_anomaly` result is
emitted for the record if and only if the accumulated sum exceeds 0.5. -/
theorem claim_C1_rule_flagging (df : List FeatureRow) (row : FeatureRow)
    (hmem : row ∈ df) (hlen : 5 ≤ df.length)
    (hend : containsSuspicious (row.raw_log.endpoint.getD "") = true) :
    ruleScore row.raw_log =
      ((if row.raw_log.suspicious_behavior.getD false then (2:ℚ)/5 else 0) +
       (if row.raw_log.unusual_pattern.getD false then (3:ℚ)/10 else 0) +
       (if row.raw_log.anomaly_score.getD 0 > 7/10 then (3:ℚ)/10 else 0) +
       (if row.raw_log.response_time_ms.getD 0 > 2000 then (1:ℚ)/5 else 0) +
       (if row.raw_log.response_size.getD 0 > 1000 then (1:ℚ)/10 else 0),
       (if row.raw_log.suspicious_behavior.getD false
          then [Reason.suspicious_behavior_flag] else []) ++
       (if row.raw_log.unusual_pattern.getD false
          then [Reason.unusual_pattern_flag] else []) ++
       (if row.raw_log.anomaly_score.getD 0 > 7/10
          then [Reason.high_anomaly_score (row.raw_log.anomaly_score.getD 0)] else []) ++
       (if row.raw_log.response_time_ms.getD 0 > 2000
          then [Reason.slow_response (row.raw_log.response_time_ms.getD 0)] else []) ++
       (if row.raw_log.response_size.getD 0 > 1000
          then [Reason.large_response (row.raw_log.response_size.getD 0)] else [])) ∧
    ((ruleScore row.raw_log).1 > 1/2 →
      suspiciousAnomaly row ∈ detect_anomalies df) ∧
    (¬ (ruleScore row.raw_log).1 > 1/2 → evalSuspicious row = none) ∧
    (∀ a : Anomaly, evalSuspicious row = some a →
      (ruleScore row.raw_log).1 > 1/2 ∧ a = suspiciousAnomaly row) := by
  refine ⟨ruleScore_eval row.raw_log, ?_, evalSuspicious_neg row,
    evalSuspicious_inv row⟩
  intro hsc
  rw [detect_anomalies_eq df hlen]
  exact List.mem_append.mpr (Or.inl
    (List.mem_filterMap.mpr ⟨row, hmem, evalSuspicious_pos row hend hsc⟩))

/-- C1 witness: the all-conditions record on `/api/suspicious` (sum 1.3 >
0.5) is emitted as a `suspicious_endpoint_anomaly` from its 5-record
batch. -/
theorem claim_C1_rule_flagging_witness :
    suspiciousAnomaly (extract_features_row midnight allConditionsRecord) ∈
      detect_anomalies dfAllConditions :=
  (claim_C1_rule_flagging dfAllConditions
      (extract_features_row midnight allConditionsRecord)
      (by unfold dfAllConditions extract_features
          exact List.mem_map_of_mem _ (by simp))
      (by unfold dfAllConditions extract_features; simp)
      (by decide)).2.1 (by with_unfolding_all decide)

/-- C2, counterexample: a record on `/api/suspicious` with
`response_time_ms = 6000 > 5000` produces NO `performance_anomaly` (the
performance rule skips the suspicious endpoint), so "any endpoint …
unconditionally" fails as stated. -/
theorem claim_C2_counterexample :
    slowSuspiciousRecord.response_time_ms.getD 0 > 5000 ∧
    detect_anomalies dfSlowSuspicious = [] := by
  refine ⟨by with_unfolding_all decide, by with_unfolding_all decide⟩

/-- C2 (amended): for every log record whose endpoint does NOT contain
`/api/suspicious`, in a batch of at least 5 rows, `response_time_ms > 5000`
emits a standalone `performance_anomaly` with score exactly 0.8 and the
single reason `extremely_slow_response_<ms>`, regardless of the
weighted-sum cutoff. -/
theorem claim_C2_performance (df : List FeatureRow) (row : FeatureRow)
    (hmem : row ∈ df) (hlen : 5 ≤ df.length)
    (hend : containsSuspicious (row.raw_log.endpoint.getD "") = false)
    (hrt : row.raw_log.response_time_ms.getD 0 > 5000) :
    perfAnomaly row ∈ detect_anomalies df ∧
    (perfAnomaly row).score = 4/5 ∧
    (perfAnomaly row).reasons =
      [Reason.extremely_slow_response (row.raw_log.response_time_ms.getD 0)] := by
  refine ⟨?_, rfl, rfl⟩
  rw [detect_anomalies_eq df hlen]
  exact List.mem_append.mpr (Or.inr
    (List.mem_flatMap.mpr ⟨row, hmem, perf_mem_evalOther row hend hrt⟩))

/-- C2 witness: a 6000 ms record on `/api/data` is emitted as a
`performance_anomaly` from its 5-record batch. -/
theorem claim_C2_performance_witness :
    perfAnomaly (extract_features_row midnight slowNormalRecord) ∈
      detect_anomalies dfSlowNormal :=
  (claim_C2_performance dfSlowNormal
      (extract_features_row midnight slowNormalRecord)
      (by unfold dfSlowNormal extract_features
          exact List.mem_map_of_mem _ (by simp))
      (by unfold dfSlowNormal extract_features; simp)
      (by decide) (by with_unfolding_all decide)).1

/-- C3, counterexample: a record on `/api/suspicious` with
`status_code = 500` produces NO `error_anomaly` (the server-error rule
skips the suspicious endpoint), so "any endpoint" fails as stated. -/
theorem claim_C3_counterexample :
    errorSuspiciousRecord.status_code.getD 200 ≥ 500 ∧
    detect_anomalies dfErrorSuspicious = [] := by
  refine ⟨by decide, by with_unfolding_all decide⟩

/-- C3 (amended): for every log record whose endpoint does NOT contain
`/api/suspicious`, in a batch of at least 5 rows, `status_code ≥ 500`
emits a standalone `error_anomaly` with score exactly 0.9 and reason
`server_error_<code>`, classified severity HIGH; and the spec's 15-record
batch (10 normal 200s, 5 status-500) yields exactly 5 `error_anomaly`
results, each severity HIGH. -/
theorem claim_C3_error :
    (∀ (df : List FeatureRow) (row : FeatureRow), row ∈ df → 5 ≤ df.length →
      containsSuspicious (row.raw_log.endpoint.getD "") = false →
      row.raw_log.status_code.getD 200 ≥ 500 →
      errorAnomaly row ∈ detect_anomalies df ∧
      determine_severity (errorAnomaly row).score (errorAnomaly row).type =
        "HIGH") ∧
    (detect_anomalies batch15).map
        (fun a => (a.type, determine_severity a.score a.type)) =
      List.replicate 5 ("error_anomaly", "HIGH") := by
  constructor
  · intro df row hmem hlen hend hst
    constructor
    · rw [detect_anomalies_eq df hlen]
      exact List.mem_append.mpr (Or.inr
        (List.mem_flatMap.mpr ⟨row, hmem, error_mem_evalOther row hend hst⟩))
    · norm_num [determine_severity, errorAnomaly]
  · with_unfolding_all decide

/-- C3 witness: a status-500 record on `/api/orders` inside the 15-record
batch is emitted as an `error_anomaly` of severity HIGH. -/
theorem claim_C3_error_witness :
    errorAnomaly (extract_features_row midnight errorStatusRecord) ∈
      detect_anomalies batch15 ∧
    determine_severity
      (errorAnomaly (extract_features_row midnight errorStatusRecord)).score
      (errorAnomaly (extract_features_row midnight errorStatusRecord)).type =
      "HIGH" :=
  claim_C3_error.1 batch15 (extract_features_row midnight errorStatusRecord)
    (by unfold batch15 extract_features
        exact List.mem_map_of_mem _ (by simp))
    (by unfold batch15 extract_features; simp)
    (by decide) (by decide)

/-- C4, counterexample: the all-conditions record is emitted with score
1.3 > 1, so "every AnomalyResult has score in [0,1]" fails as stated. -/
theorem claim_C4_counterexample :
    (detect_anomalies dfAllConditions).map (fun a => a.score) = [13/10] ∧
    ¬ ((13:ℚ)/10 ≤ 1) := by
  refine ⟨by with_unfolding_all decide, by norm_num⟩

/-- C4 (amended): every AnomalyResult produced by a detection cycle has a
score in the closed interval [0, 1.3] (the weighted rules can sum to 1.3),
for every possible input batch. -/
theorem claim_C4_score_bounds (df : List FeatureRow) (a : Anomaly)
    (ha : a ∈ detect_anomalies df) : 0 ≤ a.score ∧ a.score ≤ 13/10 := by
  unfold detect_anomalies at ha
  by_cases hlen : df.length < 5
  · rw [if_pos hlen] at ha
    exact absurd ha (by simp)
  · rw [if_neg hlen] at ha
    rcases List.mem_append.mp ha with h | h
    · obtain ⟨row, _, hrow⟩ := List.mem_filterMap.mp h
      obtain ⟨_, rfl⟩ := evalSuspicious_inv row a hrow
      simpa [suspiciousAnomaly] using ruleScore_bounds row.raw_log
    · obtain ⟨row, _, hrow⟩ := List.mem_flatMap.mp h
      rcases evalOther_cases row a hrow with rfl | rfl <;>
        norm_num [perfAnomaly, errorAnomaly]

/-- C4 witness: the score bound applied to the anomaly emitted for the
all-conditions batch. -/
theorem claim_C4_score_bounds_witness :
    0 ≤ (suspiciousAnomaly
        (extract_features_row midnight allConditionsRecord)).score ∧
    (suspiciousAnomaly
        (extract_features_row midnight allConditionsRecord)).score ≤ 13/10 :=
  claim_C4_score_bounds dfAllConditions
    (suspiciousAnomaly (extract_features_row midnight allConditionsRecord))
    (by
      rw [detect_anomalies_eq dfAllConditions
        (by unfold dfAllConditions extract_features; simp)]
      exact List.mem_append.mpr (Or.inl (List.mem_filterMap.mpr
        ⟨extract_features_row midnight allConditionsRecord,
         by unfold dfAllConditions extract_features
            exact List.mem_map_of_mem _ (by simp),
         evalSuspicious_pos _ (by decide) (by with_unfolding_all decide)⟩)))

/-- C10: above the minimum batch size, the returned list is the
suspicious-endpoint pass over the whole frame followed by the
performance/error pass over the whole frame, so every
`suspicious_endpoint_anomaly` precedes every `performance_anomaly` and
`error_anomaly` regardless of how the source records were interleaved. -/
theorem claim_C10_two_phase (df : List FeatureRow) (hlen : 5 ≤ df.length) :
    detect_anomalies df = df.filterMap evalSuspicious ++ df.flatMap evalOther ∧
    (∀ a ∈ df.filterMap evalSuspicious,
      a.type = "suspicious_endpoint_anomaly") ∧
    (∀ a ∈ df.flatMap evalOther,
      a.type = "performance_anomaly" ∨ a.type = "error_anomaly") := by
  refine ⟨detect_anomalies_eq df hlen, ?_, ?_⟩
  · intro a ha
    obtain ⟨row, _, hrow⟩ := List.mem_filterMap.mp ha
    obtain ⟨_, rfl⟩ := evalSuspicious_inv row a hrow
    rfl
  · intro a ha
    obtain ⟨row, _, hrow⟩ := List.mem_flatMap.mp ha
    rcases evalOther_cases row a hrow with rfl | rfl
    · exact Or.inl rfl
    · exact Or.inr rfl

/-- C10 witness: in a batch where an error record precedes the flagged
suspicious record, the suspicious result still comes first. -/
theorem claim_C10_two_phase_witness :
    detect_anomalies dfInterleaved =
      dfInterleaved.filterMap evalSuspicious ++
        dfInterleaved.flatMap evalOther :=
  (claim_C10_two_phase dfInterleaved (by with_unfolding_all decide)).1

/-- C5: the training gate of `detect.py` at a window that reaches exactly
`MinSamples = 10` vectors: the cycle appends the vector (no trimming), the
window holds 10 vectors — the "(10/10 samples)" the loop itself prints —
and the `len(historical_features) > 10` gate still SKIPS training, although
the spec requires `fit` to proceed at `≥ MinSamples = 10`. -/
theorem claim_C5_training_gate (hist : List FeatureVec) (f : FeatureVec)
    (h : hist.length = 9) :
    (cycleStep hist f).1 = hist ++ [f] ∧
    (cycleStep hist f).1.length = 10 ∧
    (cycleStep hist f).2 = false := by
  have hl : (hist ++ [f]).length = 10 := by simp [h]
  refine ⟨?_, ?_, ?_⟩ <;> simp [cycleStep, trimWindow, hl]

/-- C5 witness: the gate evaluated on a concrete 9-vector history. -/
theorem claim_C5_training_gate_witness :
    (cycleStep (List.replicate 9 ([] : FeatureVec)) []).2 = false :=
  (claim_C5_training_gate (List.replicate 9 ([] : FeatureVec)) []
    (by decide)).2.2

/-- C6: feature extraction is total and schema-stable: for every record,
even with all optional fields missing, the extracted vector has the fixed
schema length 7, and missing fields default to 0 (`response_time_ms`),
200 (`status_code`), and the empty string (`endpoint`, `user_agent`,
giving length 0). -/
theorem claim_C6_extract_defaults (now : DateTime) (r : LogRecord) :
    (featureVector (extract_features_row now r)).length = 7 ∧
    (r.response_time_ms = none →
      (extract_features_row now r).response_time_ms = 0) ∧
    (r.status_code = none → (extract_features_row now r).status_code = 200) ∧
    (r.endpoint = none → (extract_features_row now r).endpoint_length = 0) ∧
    (r.user_agent = none →
      (extract_features_row now r).user_agent_length = 0) := by
  refine ⟨rfl, fun h => ?_, fun h => ?_, fun h => ?_, fun h => ?_⟩ <;>
  simp [extract_features_row, h]

/-- C6 witness: the defaults on the fully-empty record. -/
theorem claim_C6_extract_defaults_witness :
    (extract_features_row midnight {}).response_time_ms = 0 ∧
    (extract_features_row midnight {}).status_code = 200 ∧
    (extract_features_row midnight {}).endpoint_length = 0 ∧
    (extract_features_row midnight {}).user_agent_length = 0 :=
  ⟨(claim_C6_extract_defaults midnight {}).2.1 rfl,
   (claim_C6_extract_defaults midnight {}).2.2.1 rfl,
   (claim_C6_extract_defaults midnight {}).2.2.2.1 rfl,
   (claim_C6_extract_defaults midnight {}).2.2.2.2 rfl⟩

/-- C7: severity classification returns HIGH exactly when score > 0.8 or
the type is `response_time_anomaly` or `status_code_anomaly`, MEDIUM
exactly when it is not HIGH and score > 0.5, and LOW otherwise. -/
theorem claim_C7_severity (score : ℚ) (anomaly_type : String) :
    (determine_severity score anomaly_type = "HIGH" ↔
      (score > 4/5 ∨ anomaly_type = "response_time_anomaly" ∨
        anomaly_type = "status_code_anomaly")) ∧
    (determine_severity score anomaly_type = "MEDIUM" ↔
      (¬ (score > 4/5 ∨ anomaly_type = "response_time_anomaly" ∨
            anomaly_type = "status_code_anomaly") ∧ score > 1/2)) ∧
    (determine_severity score anomaly_type = "LOW" ↔
      (¬ (score > 4/5 ∨ anomaly_type = "response_time_anomaly" ∨
            anomaly_type = "status_code_anomaly") ∧ ¬ score > 1/2)) := by
  unfold determine_severity
  split_ifs with h1 h2 <;>
    refine ⟨?_, ?_, ?_⟩ <;> simp_all

/-- C8: the alert summary is read-only and idempotent: it leaves the
handler state unchanged, and a second call with the same arguments and no
intervening alerts returns the same summary. -/
theorem claim_C8_summary_readonly (s : AlertHandlerState) (hours now : ℚ) :
    (get_alert_summaryS s hours now).1 = s ∧
    (get_alert_summaryS (get_alert_summaryS s hours now).1 hours now).2 =
      (get_alert_summaryS s hours now).2 :=
  ⟨rfl, rfl⟩

/-! ## Rolling-window lemmas -/

lemma appendTrim_drop (W : ℕ) (l : List ℕ) (x : ℕ) :
    appendTrim W (l.drop (l.length - W)) x =
      (l ++ [x]).drop ((l ++ [x]).length - W) := by
  unfold appendTrim
  by_cases h : l.length < W
  · have h0 : l.length - W = 0 := by omega
    rw [h0, List.drop_zero]
    have hc : ¬ W < (l ++ [x]).length := by
      simp only [List.length_append, List.length_singleton]; omega
    rw [if_neg hc]
    have h1 : (l ++ [x]).length - W = 0 := by
      simp only [List.length_append, List.length_singleton]; omega
    rw [h1, List.drop_zero]
  · push_neg at h
    have hlen : (l.drop (l.length - W)).length = W := by
      rw [List.length_drop]; omega
    have hc : W < (l.drop (l.length - W) ++ [x]).length := by
      simp only [List.length_append, List.length_singleton, hlen]; omega
    rw [if_pos hc]
    have h2 : (l.drop (l.length - W) ++ [x]).length - W = 1 := by
      simp only [List.length_append, List.length_singleton, hlen]; omega
    rw [h2]
    have h3 : l.drop (l.length - W) ++ [x] = (l ++ [x]).drop (l.length - W) :=
      (List.drop_append_of_le_length (by omega)).symm
    rw [h3, List.drop_drop]
    congr 1
    simp only [List.length_append, List.length_singleton]
    omega

/-- The rolling window always holds exactly the newest `W` entries of the
appended sequence. -/
lemma runWindow_eq (W : ℕ) (xs : List ℕ) :
    runWindow W xs = xs.drop (xs.length - W) := by
  induction xs using List.reverseRecOn with
  | nil => simp [runWindow]
  | append_singleton l x ih =>
      unfold runWindow at ih ⊢
      rw [List.foldl_append, List.foldl_cons, List.foldl_nil, ih,
        appendTrim_drop]

/-- C9 (amended): the rolling window never exceeds its capacity `W`, and
after `W + k` appends of distinct entries with `0 < k ≤ W` the window is
exactly the last `W` entries in insertion order: the oldest `k` are absent
and the newest entries form the window. -/
theorem claim_C9_window_fifo (W k : ℕ) (xs : List ℕ)
    (hlen : xs.length = W + k) (hk : 0 < k) (hkW : k ≤ W)
    (hnd : xs.Nodup) :
    (∀ ys : List ℕ, (runWindow W ys).length ≤ W) ∧
    runWindow W xs = xs.drop k ∧
    (∀ a ∈ xs.take k, a ∉ runWindow W xs) ∧
    (xs.drop W).IsSuffix (runWindow W xs) := by
  have hrun : runWindow W xs = xs.drop k := by
    rw [runWindow_eq]
    congr 1
    omega
  refine ⟨fun ys => ?_, hrun, ?_, ?_⟩
  · rw [runWindow_eq, List.length_drop]
    omega
  · intro a ha hmem
    rw [hrun] at hmem
    rw [← List.take_append_drop k xs] at hnd
    exact (List.nodup_append.mp hnd).2.2 ha hmem
  · rw [hrun]
    have hWk : xs.drop W = (xs.drop k).drop (W - k) := by
      rw [List.drop_drop]
      congr 1
      omega
    rw [hWk]
    exact List.drop_suffix _ _

/-- C9 witness: capacity 2, three appends: the window is the last two
entries. -/
theorem claim_C9_window_fifo_witness :
    runWindow 2 [0, 1, 2] = [0, 1, 2].drop 1 :=
  (claim_C9_window_fifo 2 1 [0, 1, 2] rfl (by decide) (by decide)
    (by decide)).2.1

set_option maxRecDepth 10000 in
/-- C9, counterexample: the claim quantifies over every `k > 0`, but for
`k > W` the "newest k entries are present" part fails: with `W = 100` and
`201 = 100 + 101` distinct appends, entry `100` is among the newest 101
entries yet absent from the window. -/
theorem claim_C9_counterexample :
    (List.range 201).length = 100 + 101 ∧ (List.range 201).Nodup ∧
    100 ∈ (List.range 201).drop 100 ∧
    100 ∉ runWindow 100 (List.range 201) := by
  refine ⟨by simp, List.nodup_range 201, by decide, ?_⟩
  rw [runWindow_eq]
  decide

end ApisLogging
